import Mathlib

/-!
# Verification of the rust-etcd client core

A shallow embedding of the multi-endpoint failover dispatcher and the
key-value / auth / members operation pipelines of the `rust-etcd`
client library, together with proofs of the specified properties.

Sources embedded: `src/first_ok.rs`, `src/kv.rs`, `src/auth.rs`,
`src/members.rs`.  External collaborators (the hyper HTTP transport,
URL parsing, serde JSON decoding) are abstracted as function-valued
fields of an `HttpApi` record: the embedding is parametric in them,
exactly as the library is generic over its transport.
-/

namespace Etcd

/-- Base URI of one cluster member (`hyper::Uri`); opaque to the client,
only formatted into request URLs. -/
abbrev Uri := String

/-- An HTTP response body (aggregated bytes). -/
abbrev Body := String

/-- An opaque serde decoding error (`serde_json::Error`). -/
structure SerdeError where
  msg : String
  deriving Repr, DecidableEq

/-- The structured etcd API error payload (error code, message, affected
key, caused-by index).  Modelled from the spec: `ApiError` lives in
`src/error.rs`, which is not part of the embedded sources; fields per
spec section 4.3. -/
structure ApiError where
  errorCode : Nat
  message : String
  cause : Option String
  index : Option Nat
  deriving Repr, DecidableEq

/-- Cluster identifying information extracted from response headers
(`ClusterInfo::from(response.headers())` in `src/client.rs`); carried
through unchanged, never inspected by control flow. -/
structure ClusterInfo where
  clusterId : Option String
  etcdIndex : Option Nat
  deriving Repr, DecidableEq

/-- A successful response: payload plus cluster metadata
(`client::Response<T>`). -/
structure Response (T : Type) where
  data : T
  cluster_info : ClusterInfo
  deriving Repr, DecidableEq

/-- The client error taxonomy.  Modelled from the spec: the `Error` enum
lives in `src/error.rs`, which is not part of the embedded sources;
variants per spec section 7.  `Transport` stands for the url/uri/hyper
failure variants, which the spec groups as transport errors. -/
inductive Error where
  | Api (e : ApiError)
  | InvalidConditions
  | Serialization (e : SerdeError)
  | Transport (msg : String)
  | UnexpectedStatus (status : Nat)
  deriving Repr, DecidableEq

/-- The watch-specific error channel.  Modelled from the spec:
`WatchError` is re-exported from `src/error.rs`, which is not part of
the embedded sources; variants per spec sections 4.4 and 7
(`Timeout` watch-only, `Other` wrapping dispatcher errors). -/
inductive WatchError where
  | Timeout
  | Other (errors : List Error)
  deriving Repr, DecidableEq

/-! ## `src/first_ok.rs` — the failover dispatcher

The Rust functions are async; each future is awaited at most once and in
sequence, so a run is determined by the list of results the futures
would produce.  The embedding takes that list (for `first_ok`, the
callback producing the per-endpoint result). -/

/-- Loop body of `first_future_ok`: the `errors` accumulator and the
remaining futures.  `src/first_ok.rs` lines 22-31. -/
def first_future_ok_loop {T E : Type} (errors : List E) :
    List (Except E T) → Except (List E) T
  | [] => .error errors
  | future :: rest =>
    match future with
    | .ok item => .ok item
    | .error err => first_future_ok_loop (errors ++ [err]) rest

/-- Await all futures in sequence, returning the result (and
short-circuiting) if one completes successfully or a vector of all
errors if none does.  `first_future_ok`, `src/first_ok.rs` lines 17-32. -/
def first_future_ok {T E : Type} (futures : List (Except E T)) :
    Except (List E) T :=
  first_future_ok_loop [] futures

/-- Executes the given closure with each cluster member and
short-circuit returns the first successful result.  `first_ok`,
`src/first_ok.rs` lines 7-13 (`endpoints.iter().map(callback)` is a lazy
iterator: the closure runs once per future awaited). -/
def first_ok {T E : Type} (endpoints : List Uri)
    (callback : Uri → Except E T) : Except (List E) T :=
  first_future_ok (endpoints.map callback)

/-- Instrumentation: how many futures the `first_future_ok` loop awaits
on the given list before returning (equivalently, how many times
`first_ok` invokes its closure, since the mapped iterator is lazy). -/
def awaited_count {T E : Type} : List (Except E T) → Nat
  | [] => 0
  | .ok _ :: _ => 1
  | .error _ :: rest => awaited_count rest + 1

/-- The errors of a run, in encounter order: what the `errors`
accumulator holds once a run of `first_future_ok` has exhausted the
list. -/
def errs_of {T E : Type} : List (Except E T) → List E
  | [] => []
  | .ok _ :: rest => errs_of rest
  | .error e :: rest => e :: errs_of rest

/-- Whether a Rust `Result` is `Ok`. -/
def isSuccess {T E : Type} : Except E T → Bool
  | .ok _ => true
  | .error _ => false

/-! ## `src/kv.rs` — data model -/

/-- The type of action taken in response to a key-value API request
(`kv::Action`, `src/kv.rs` lines 47-72). -/
inductive Action where
  | CompareAndDelete
  | CompareAndSwap
  | Create
  | Delete
  | Expire
  | Get
  | Set
  | Update
  deriving Repr, DecidableEq

/-- An etcd key or directory (`kv::Node`, `src/kv.rs` lines 76-95). -/
inductive Node where
  | mk (created_index : Option Nat) (dir : Option Bool)
      (expiration : Option String) (key : Option String)
      (modified_index : Option Nat) (nodes : Option (List Node))
      (ttl : Option Int) (value : Option String)

/-- Information about the result of a successful key-value API operation
(`kv::KeyValueInfo`, `src/kv.rs` lines 33-41). -/
structure KeyValueInfo where
  action : Action
  node : Node
  prev_node : Option Node

/-! ## Operation options

Modelled from the spec: `ComparisonConditions`, `SetOptions`,
`DeleteOptions` and the internal `GetOptions` live in `src/options.rs`,
which is not part of the embedded sources.  Fields and defaults per spec
section 3 (all optional fields absent, all booleans false by default);
the invalidity of a conditions value with both fields absent per spec
sections 3 and 4.2.  Field usage agrees with every use site in
`src/kv.rs`. -/

/-- Conditions for a compare-and-swap / compare-and-delete. -/
structure ComparisonConditions where
  value : Option String
  modified_index : Option Nat
  deriving Repr, DecidableEq

/-- Modelled from the spec: a conditions value is empty exactly when
both fields are absent (spec section 3: "a `Conditions` value with both
fields absent is invalid"). -/
def ComparisonConditions.is_empty (c : ComparisonConditions) : Bool :=
  c.value.isNone && c.modified_index.isNone

/-- Options consumed by `raw_set`. -/
structure SetOptions where
  value : Option String := none
  ttl : Option Nat := none
  dir : Option Bool := none
  prev_exist : Option Bool := none
  create_in_order : Bool := false
  conditions : Option ComparisonConditions := none
  deriving Repr, DecidableEq

/-- Options consumed by `raw_delete`. -/
structure DeleteOptions where
  recursive : Option Bool := none
  dir : Option Bool := none
  conditions : Option ComparisonConditions := none
  deriving Repr, DecidableEq

/-- Options consumed by `raw_get` (imported as `InternalGetOptions` in
`src/kv.rs`). -/
structure InternalGetOptions where
  recursive : Bool := false
  sort : Option Bool := none
  strong_consistency : Bool := false
  wait : Bool := false
  wait_index : Option Nat := none
  deriving Repr, DecidableEq

/-- Options for customizing the behavior of `kv::watch`
(`kv::WatchOptions`, `src/kv.rs` lines 114-122; the `Duration` is kept
opaque). -/
structure WatchOptions where
  index : Option Nat := none
  recursive : Bool := false
  timeout : Option Nat := none
  deriving Repr, DecidableEq

/-! ## The external world

The HTTP transport, URL parsing and serde decoding are external
collaborators; the pipelines are parametric in them. -/

/-- A completed HTTP exchange: status code, cluster metadata extracted
from the headers, and the aggregated body. -/
structure HttpResponse where
  status : Nat
  cluster_info : ClusterInfo
  body : Body

/-- The external collaborators of the key-value pipeline: hyper
transport methods (`src/http.rs`), `Url::parse_with_params`,
`Uri::from_str`, the form-urlencoded serializer and the serde decoders
used by `src/kv.rs`.  Failures of each are already converted to `Error`
(the `map_err(Error::from)` at every use site). -/
structure HttpApi where
  url_parse_with_params : String → List (String × String) → Except Error String
  uri_from_str : String → Except Error Uri
  serialize_form : List (String × String) → Body
  http_get : Uri → Except Error HttpResponse
  http_put : Uri → Body → Except Error HttpResponse
  http_post : Uri → Body → Except Error HttpResponse
  http_delete : Uri → Except Error HttpResponse
  from_reader_kv : Body → Except SerdeError KeyValueInfo
  from_reader_api_error : Body → Except SerdeError ApiError

/-- A concrete transport stub for evaluating the pipelines on closed
inputs: URI construction succeeds verbatim, every network call fails
with a transport error, and neither decoder accepts any body. -/
def stubApi : HttpApi where
  url_parse_with_params := fun url _ => .ok url
  uri_from_str := fun s => .ok s
  serialize_form := fun _ => ""
  http_get := fun _ => .error (.Transport "connection refused")
  http_put := fun _ _ => .error (.Transport "connection refused")
  http_post := fun _ _ => .error (.Transport "connection refused")
  http_delete := fun _ => .error (.Transport "connection refused")
  from_reader_kv := fun _ => .error ⟨"invalid body"⟩
  from_reader_api_error := fun _ => .error ⟨"invalid body"⟩

/-- `format!("{}", b)` on a Rust `bool`. -/
def fmt_bool (b : Bool) : String := if b then "true" else "false"

/-- Constructs the full URL for a key-value API call (`kv::build_url`,
`src/kv.rs` lines 589-591). -/
def build_url (endpoint : Uri) (path : String) : String :=
  endpoint ++ "v2/keys" ++ path

/-! ## `src/kv.rs` — request building -/

/-- The query-pair construction of `raw_delete` (`src/kv.rs` lines
602-629), including the fail-fast `InvalidConditions` return.  The
source collects the pairs in a `HashMap`; all inserted keys are
distinct, so the insertion-ordered list is an equivalent model. -/
def raw_delete_query_pairs (options : DeleteOptions) :
    Except (List Error) (List (String × String)) :=
  let query_pairs : List (String × String) := []
  let query_pairs := match options.recursive with
    | some b => query_pairs ++ [("recursive", fmt_bool b)]
    | none => query_pairs
  let query_pairs := match options.dir with
    | some b => query_pairs ++ [("dir", fmt_bool b)]
    | none => query_pairs
  match options.conditions with
  | some conditions =>
    if conditions.is_empty then
      .error [Error.InvalidConditions]
    else
      let query_pairs := match conditions.modified_index with
        | some n => query_pairs ++ [("prevIndex", toString n)]
        | none => query_pairs
      let query_pairs := match conditions.value with
        | some v => query_pairs ++ [("prevValue", v)]
        | none => query_pairs
      .ok query_pairs
  | none => .ok query_pairs

/-- The query-pair construction of `raw_get` (`src/kv.rs` lines
681-695).  Never fails; note the unconditional `recursive` insert. -/
def raw_get_query_pairs (options : InternalGetOptions) :
    List (String × String) :=
  let query_pairs : List (String × String) :=
    [("recursive", fmt_bool options.recursive)]
  let query_pairs := match options.sort with
    | some b => query_pairs ++ [("sorted", fmt_bool b)]
    | none => query_pairs
  let query_pairs := if options.wait
    then query_pairs ++ [("wait", "true")]
    else query_pairs
  let query_pairs := match options.wait_index with
    | some n => query_pairs ++ [("waitIndex", toString n)]
    | none => query_pairs
  query_pairs

/-- The form-field construction of `raw_set` (`src/kv.rs` lines
746-776), including the fail-fast `InvalidConditions` return.  The
source pushes into a `Vec` in this exact order. -/
def raw_set_http_options (options : SetOptions) :
    Except (List Error) (List (String × String)) :=
  let http_options : List (String × String) := []
  let http_options := match options.value with
    | some v => http_options ++ [("value", v)]
    | none => http_options
  let http_options := match options.ttl with
    | some t => http_options ++ [("ttl", toString t)]
    | none => http_options
  let http_options := match options.dir with
    | some d => http_options ++ [("dir", fmt_bool d)]
    | none => http_options
  let http_options := match options.prev_exist with
    | some p => http_options ++ [("prevExist", fmt_bool p)]
    | none => http_options
  match options.conditions with
  | some conditions =>
    if conditions.is_empty then
      .error [Error.InvalidConditions]
    else
      let http_options := match conditions.modified_index with
        | some n => http_options ++ [("prevIndex", toString n)]
        | none => http_options
      let http_options := match conditions.value with
        | some v => http_options ++ [("prevValue", v)]
        | none => http_options
      .ok http_options
  | none => .ok http_options

/-! ## `src/kv.rs` — response classification and dispatch -/

/-- The response classification shared verbatim by the per-endpoint
closures of `raw_get` (`src/kv.rs` lines 719-731) and `raw_delete`
(lines 653-665): on status 200 decode the body as `KeyValueInfo`,
otherwise decode it as `ApiError`; either decode failure is a
`Serialization` error. -/
def kv_classify_ok (api : HttpApi) (status : Nat)
    (cluster_info : ClusterInfo) (body : Body) :
    Except Error (Response KeyValueInfo) :=
  if status = 200 then
    match api.from_reader_kv body with
    | .ok data => .ok { data := data, cluster_info := cluster_info }
    | .error error => .error (.Serialization error)
  else
    match api.from_reader_api_error body with
    | .ok error => .error (.Api error)
    | .error error => .error (.Serialization error)

/-- The response classification of `raw_set`'s per-endpoint closure
(`src/kv.rs` lines 807-820): statuses 201 and 200 are the success
family, everything else goes through the `ApiError` decode. -/
def kv_classify_set (api : HttpApi) (status : Nat)
    (cluster_info : ClusterInfo) (body : Body) :
    Except Error (Response KeyValueInfo) :=
  if status = 201 ∨ status = 200 then
    match api.from_reader_kv body with
    | .ok data => .ok { data := data, cluster_info := cluster_info }
    | .error error => .error (.Serialization error)
  else
    match api.from_reader_api_error body with
    | .ok error => .error (.Api error)
    | .error error => .error (.Serialization error)

/-- The per-endpoint closure of `raw_delete` (`src/kv.rs` lines
634-666): parse the URL with query pairs, convert to a `Uri`, issue the
DELETE, classify the response. -/
def raw_delete_attempt (api : HttpApi) (key : String)
    (query_pairs : List (String × String)) (endpoint : Uri) :
    Except Error (Response KeyValueInfo) :=
  (api.url_parse_with_params (build_url endpoint key) query_pairs).bind
    fun url => (api.uri_from_str url).bind
    fun uri => (api.http_delete uri).bind
    fun response =>
      kv_classify_ok api response.status response.cluster_info response.body

/-- Handles all delete operations (`kv::raw_delete`, `src/kv.rs` lines
594-670). -/
def raw_delete (api : HttpApi) (endpoints : List Uri) (key : String)
    (options : DeleteOptions) :
    Except (List Error) (Response KeyValueInfo) :=
  match raw_delete_query_pairs options with
  | .error errors => .error errors
  | .ok query_pairs =>
    first_ok endpoints (raw_delete_attempt api key query_pairs)

/-- The per-endpoint closure of `raw_get` (`src/kv.rs` lines 700-733). -/
def raw_get_attempt (api : HttpApi) (key : String)
    (query_pairs : List (String × String)) (endpoint : Uri) :
    Except Error (Response KeyValueInfo) :=
  (api.url_parse_with_params (build_url endpoint key) query_pairs).bind
    fun url => (api.uri_from_str url).bind
    fun uri => (api.http_get uri).bind
    fun response =>
      kv_classify_ok api response.status response.cluster_info response.body

/-- Handles all get operations (`kv::raw_get`, `src/kv.rs` lines
673-735). -/
def raw_get (api : HttpApi) (endpoints : List Uri) (key : String)
    (options : InternalGetOptions) :
    Except (List Error) (Response KeyValueInfo) :=
  first_ok endpoints (raw_get_attempt api key (raw_get_query_pairs options))

/-- The verb selection of `raw_set`'s per-endpoint closure (`src/kv.rs`
lines 792-798): POST for ordered-key creation, PUT otherwise. -/
def set_request (api : HttpApi) (create_in_order : Bool) (uri : Uri)
    (body : Body) : Except Error HttpResponse :=
  if create_in_order then api.http_post uri body else api.http_put uri body

/-- The per-endpoint closure of `raw_set` (`src/kv.rs` lines 782-822):
form-encode the collected fields as the body, build the URI, issue the
PUT or POST, classify the response. -/
def raw_set_attempt (api : HttpApi) (key : String)
    (http_options : List (String × String)) (create_in_order : Bool)
    (endpoint : Uri) : Except Error (Response KeyValueInfo) :=
  let body := api.serialize_form http_options
  (api.uri_from_str (build_url endpoint key)).bind
    fun uri => (set_request api create_in_order uri body).bind
    fun response =>
      kv_classify_set api response.status response.cluster_info response.body

/-- Handles all set operations (`kv::raw_set`, `src/kv.rs` lines
738-824). -/
def raw_set (api : HttpApi) (endpoints : List Uri) (key : String)
    (options : SetOptions) : Except (List Error) (Response KeyValueInfo) :=
  match raw_set_http_options options with
  | .error errors => .error errors
  | .ok http_options =>
    first_ok endpoints
      (raw_set_attempt api key http_options options.create_in_order)

/-- Instrumentation: the number of endpoints `raw_set` contacts, i.e.
how many times its per-endpoint closure runs.  The `InvalidConditions`
return in the source (`src/kv.rs` line 766) happens before `first_ok`
is ever called, hence zero in that branch. -/
def raw_set_contacts (api : HttpApi) (endpoints : List Uri) (key : String)
    (options : SetOptions) : Nat :=
  match raw_set_http_options options with
  | .error _ => 0
  | .ok http_options =>
    awaited_count
      (endpoints.map
        (raw_set_attempt api key http_options options.create_in_order))

/-- Instrumentation: the number of endpoints `raw_delete` contacts;
zero when the `InvalidConditions` return (`src/kv.rs` line 616) fires
before `first_ok`. -/
def raw_delete_contacts (api : HttpApi) (endpoints : List Uri)
    (key : String) (options : DeleteOptions) : Nat :=
  match raw_delete_query_pairs options with
  | .error _ => 0
  | .ok query_pairs =>
    awaited_count (endpoints.map (raw_delete_attempt api key query_pairs))

/-! ## `src/kv.rs` — compositions -/

/-- Deletes a node only if the given current value and/or current
modified index match (`kv::compare_and_delete`, `src/kv.rs` lines
138-159). -/
def compare_and_delete (api : HttpApi) (endpoints : List Uri)
    (key : String) (current_value : Option String)
    (current_modified_index : Option Nat) :
    Except (List Error) (Response KeyValueInfo) :=
  raw_delete api endpoints key
    { conditions := some
        { value := current_value, modified_index := current_modified_index } }

/-- Updates a node only if the given current value and/or current
modified index match (`kv::compare_and_swap`, `src/kv.rs` lines
178-203). -/
def compare_and_swap (api : HttpApi) (endpoints : List Uri) (key : String)
    (value : String) (ttl : Option Nat) (current_value : Option String)
    (current_modified_index : Option Nat) :
    Except (List Error) (Response KeyValueInfo) :=
  raw_set api endpoints key
    { conditions := some
        { value := current_value, modified_index := current_modified_index }
      ttl := ttl
      value := some value }

/-! ## `src/kv.rs` — watch -/

/-- The error of `tokio::time::timeout` when the duration elapses before
the inner future completes. -/
inductive Elapsed where
  | elapsed
  deriving Repr, DecidableEq

/-- `tokio::time::timeout(duration, work)`: the race of the long-poll
against the timer.  Its outcome is external nondeterminism, summarized
by whether the timer fires before the work resolves. -/
def tokio_timeout {α : Type} (timer_fires_first : Bool) (work : α) :
    Except Elapsed α :=
  if timer_fires_first then .error .elapsed else .ok work

/-- Modelled from the spec: the `From<Elapsed>` conversion used by
`err_into()` lives in `src/error.rs`, which is not part of the embedded
sources; per spec sections 4.4 and 7 an elapsed watch timer becomes the
watch-only `Timeout` error. -/
def WatchError.from_elapsed : Elapsed → WatchError := fun _ => .Timeout

/-- `map_err` on a Rust `Result`. -/
def map_err {α ε ε' : Type} (f : ε → ε') : Except ε α → Except ε' α
  | .ok a => .ok a
  | .error e => .error (f e)

/-- `kv::flatten_result` (`src/kv.rs` lines 540-542). -/
def flatten_result {T E : Type} (res : Except E (Except E T)) :
    Except E T :=
  res.bind id

/-- Watches a node for changes (`kv::watch`, `src/kv.rs` lines 561-586):
a `raw_get` long-poll with `wait` set and `wait_index` taken from the
supplied index, its dispatcher errors wrapped as `WatchError::Other`,
raced against a timer only when a timeout was configured. -/
def watch (api : HttpApi) (endpoints : List Uri) (key : String)
    (options : WatchOptions) (timer_fires_first : Bool) :
    Except WatchError (Response KeyValueInfo) :=
  let work := map_err WatchError.Other
    (raw_get api endpoints key
      { recursive := options.recursive
        wait_index := options.index
        wait := true })
  match options.timeout with
  | some _duration =>
    flatten_result
      (map_err WatchError.from_elapsed (tokio_timeout timer_fires_first work))
  | none => work

/-! ## `src/auth.rs` — data model -/

/-- The result of enabling or disabling the auth system
(`auth::AuthChange`, `src/auth.rs` lines 26-31). -/
inductive AuthChange where
  | Changed
  | Unchanged
  deriving Repr, DecidableEq

/-- `auth::AuthStatus` (`src/auth.rs` lines 19-22). -/
structure AuthStatus where
  enabled : Bool
  deriving Repr, DecidableEq

/-- `auth::Permission` (`src/auth.rs` lines 375-382). -/
structure Permission where
  read : Option (List String)
  write : Option (List String)
  deriving Repr, DecidableEq

/-- `auth::Permissions` (`src/auth.rs` lines 359-362). -/
structure Permissions where
  kv : Permission
  deriving Repr, DecidableEq

/-- `auth::Role` (`src/auth.rs` lines 198-204). -/
structure Role where
  name : String
  permissions : Permissions
  deriving Repr, DecidableEq

/-- `auth::Roles`, the `GET /v2/auth/roles` response shape
(`src/auth.rs` lines 258-260). -/
structure Roles where
  roles : Option (List Role)
  deriving Repr, DecidableEq

/-- `auth::User` (`src/auth.rs` lines 35-41). -/
structure User where
  name : String
  roles : List String
  deriving Repr, DecidableEq

/-- `auth::UserDetail` (`src/auth.rs` lines 57-63). -/
structure UserDetail where
  name : String
  roles : List Role
  deriving Repr, DecidableEq

/-- `auth::Users`, the `GET /v2/auth/users` response shape
(`src/auth.rs` lines 79-81). -/
structure Users where
  users : Option (List UserDetail)
  deriving Repr, DecidableEq

/-! ## `src/auth.rs` — response classification

Each definition is the response-handling closure of one auth operation,
as a function of the status code, the cluster metadata from the headers
and (where the source reads it) the body, parametric in the serde
decoders the closure uses. -/

/-- Response handling of `auth::enable` (`src/auth.rs` lines 640-655):
200 means the auth system was changed, 409 (CONFLICT) means it was
already in the desired state, anything else is `UnexpectedStatus`.  The
body is never read. -/
def auth_enable_handle (status : Nat) (cluster_info : ClusterInfo) :
    Except Error (Response AuthChange) :=
  if status = 200 then
    .ok { data := .Changed, cluster_info := cluster_info }
  else if status = 409 then
    .ok { data := .Unchanged, cluster_info := cluster_info }
  else
    .error (.UnexpectedStatus status)

/-- Response handling of `auth::disable` (`src/auth.rs` lines 601-616);
textually the same status match as `auth::enable`. -/
def auth_disable_handle (status : Nat) (cluster_info : ClusterInfo) :
    Except Error (Response AuthChange) :=
  if status = 200 then
    .ok { data := .Changed, cluster_info := cluster_info }
  else if status = 409 then
    .ok { data := .Unchanged, cluster_info := cluster_info }
  else
    .error (.UnexpectedStatus status)

/-- Response handling of `auth::create_role` (`src/auth.rs` lines
443-457): 200 or 201 decodes a `Role`, anything else is
`UnexpectedStatus`. -/
def create_role_handle (decode_role : Body → Except SerdeError Role)
    (status : Nat) (cluster_info : ClusterInfo) (body : Body) :
    Except Error (Response Role) :=
  if status = 200 ∨ status = 201 then
    match decode_role body with
    | .ok data => .ok { data := data, cluster_info := cluster_info }
    | .error error => .error (.Serialization error)
  else
    .error (.UnexpectedStatus status)

/-- Response handling of `auth::create_user` (`src/auth.rs` lines
488-502): 200 or 201 decodes a `User`, anything else is
`UnexpectedStatus`. -/
def create_user_handle (decode_user : Body → Except SerdeError User)
    (status : Nat) (cluster_info : ClusterInfo) (body : Body) :
    Except Error (Response User) :=
  if status = 200 ∨ status = 201 then
    match decode_user body with
    | .ok data => .ok { data := data, cluster_info := cluster_info }
    | .error error => .error (.Serialization error)
  else
    .error (.UnexpectedStatus status)

/-- Response handling of `auth::delete_role` (`src/auth.rs` lines
528-540): 200 succeeds with no payload, anything else is
`UnexpectedStatus`.  The body is never read. -/
def delete_role_handle (status : Nat) (cluster_info : ClusterInfo) :
    Except Error (Response Unit) :=
  if status = 200 then
    .ok { data := (), cluster_info := cluster_info }
  else
    .error (.UnexpectedStatus status)

/-- Response handling of `auth::delete_user` (`src/auth.rs` lines
566-578); same shape as `auth::delete_role`. -/
def delete_user_handle (status : Nat) (cluster_info : ClusterInfo) :
    Except Error (Response Unit) :=
  if status = 200 then
    .ok { data := (), cluster_info := cluster_info }
  else
    .error (.UnexpectedStatus status)

/-- Response handling of `auth::get_role` (`src/auth.rs` lines
681-695). -/
def get_role_handle (decode_role : Body → Except SerdeError Role)
    (status : Nat) (cluster_info : ClusterInfo) (body : Body) :
    Except Error (Response Role) :=
  if status = 200 then
    match decode_role body with
    | .ok data => .ok { data := data, cluster_info := cluster_info }
    | .error error => .error (.Serialization error)
  else
    .error (.UnexpectedStatus status)

/-- Response handling of `auth::get_roles` (`src/auth.rs` lines
719-738): on 200 the decoded `roles` field is defaulted to the empty
vector when absent (`unwrap_or_else(|| Vec::with_capacity(0))`). -/
def get_roles_handle (decode_roles : Body → Except SerdeError Roles)
    (status : Nat) (cluster_info : ClusterInfo) (body : Body) :
    Except Error (Response (List Role)) :=
  if status = 200 then
    match decode_roles body with
    | .ok roles =>
      .ok { data := roles.roles.getD [], cluster_info := cluster_info }
    | .error error => .error (.Serialization error)
  else
    .error (.UnexpectedStatus status)

/-- Response handling of `auth::get_user` (`src/auth.rs` lines
764-779). -/
def get_user_handle
    (decode_user_detail : Body → Except SerdeError UserDetail)
    (status : Nat) (cluster_info : ClusterInfo) (body : Body) :
    Except Error (Response UserDetail) :=
  if status = 200 then
    match decode_user_detail body with
    | .ok data => .ok { data := data, cluster_info := cluster_info }
    | .error error => .error (.Serialization error)
  else
    .error (.UnexpectedStatus status)

/-- Response handling of `auth::get_users` (`src/auth.rs` lines
802-822): on 200 the decoded `users` field is defaulted to the empty
vector when absent (`unwrap_or_else(|| Vec::with_capacity(0))`). -/
def get_users_handle (decode_users : Body → Except SerdeError Users)
    (status : Nat) (cluster_info : ClusterInfo) (body : Body) :
    Except Error (Response (List UserDetail)) :=
  if status = 200 then
    match decode_users body with
    | .ok users =>
      .ok { data := users.users.getD [], cluster_info := cluster_info }
    | .error error => .error (.Serialization error)
  else
    .error (.UnexpectedStatus status)

/-- Response handling of `auth::status` (`src/auth.rs` lines 844-865):
200 decodes `AuthStatus`, other statuses go through the `ApiError`
two-stage decode. -/
def auth_status_handle
    (decode_auth_status : Body → Except SerdeError AuthStatus)
    (decode_api_error : Body → Except SerdeError ApiError)
    (status : Nat) (cluster_info : ClusterInfo) (body : Body) :
    Except Error (Response Bool) :=
  if status = 200 then
    match decode_auth_status body with
    | .ok data =>
      .ok { data := data.enabled, cluster_info := cluster_info }
    | .error error => .error (.Serialization error)
  else
    match decode_api_error body with
    | .ok error => .error (.Api error)
    | .error error => .error (.Serialization error)

/-- Response handling of `auth::update_role` (`src/auth.rs` lines
896-911). -/
def update_role_handle (decode_role : Body → Except SerdeError Role)
    (status : Nat) (cluster_info : ClusterInfo) (body : Body) :
    Except Error (Response Role) :=
  if status = 200 then
    match decode_role body with
    | .ok data => .ok { data := data, cluster_info := cluster_info }
    | .error error => .error (.Serialization error)
  else
    .error (.UnexpectedStatus status)

/-- Response handling of `auth::update_user` (`src/auth.rs` lines
942-957). -/
def update_user_handle (decode_user : Body → Except SerdeError User)
    (status : Nat) (cluster_info : ClusterInfo) (body : Body) :
    Except Error (Response User) :=
  if status = 200 then
    match decode_user body with
    | .ok data => .ok { data := data, cluster_info := cluster_info }
    | .error error => .error (.Serialization error)
  else
    .error (.UnexpectedStatus status)

/-! ## `src/members.rs` — data model and response classification -/

/-- An etcd cluster member (`members::Member`, `src/members.rs` lines
21-32). -/
structure Member where
  id : String
  name : String
  peer_urls : List String
  client_urls : List String
  deriving Repr, DecidableEq

/-- `members::ListResponse` (`src/members.rs` lines 44-47). -/
structure ListResponse where
  members : List Member
  deriving Repr, DecidableEq

/-- Response handling of `members::add` (`src/members.rs` lines 87-99):
201 (CREATED) succeeds with no payload, other statuses go through the
`ApiError` two-stage decode. -/
def members_add_handle
    (decode_api_error : Body → Except SerdeError ApiError)
    (status : Nat) (cluster_info : ClusterInfo) (body : Body) :
    Except Error (Response Unit) :=
  if status = 201 then
    .ok { data := (), cluster_info := cluster_info }
  else
    match decode_api_error body with
    | .ok error => .error (.Api error)
    | .error error => .error (.Serialization error)

/-- Response handling of `members::delete` (`src/members.rs` lines
134-146): 204 (NO_CONTENT) succeeds with no payload. -/
def members_delete_handle
    (decode_api_error : Body → Except SerdeError ApiError)
    (status : Nat) (cluster_info : ClusterInfo) (body : Body) :
    Except Error (Response Unit) :=
  if status = 204 then
    .ok { data := (), cluster_info := cluster_info }
  else
    match decode_api_error body with
    | .ok error => .error (.Api error)
    | .error error => .error (.Serialization error)

/-- Response handling of `members::list` (`src/members.rs` lines
179-194). -/
def members_list_handle
    (decode_list : Body → Except SerdeError ListResponse)
    (decode_api_error : Body → Except SerdeError ApiError)
    (status : Nat) (cluster_info : ClusterInfo) (body : Body) :
    Except Error (Response (List Member)) :=
  if status = 200 then
    match decode_list body with
    | .ok data =>
      .ok { data := data.members, cluster_info := cluster_info }
    | .error error => .error (.Serialization error)
  else
    match decode_api_error body with
    | .ok error => .error (.Api error)
    | .error error => .error (.Serialization error)

/-- Response handling of `members::update` (`src/members.rs` lines
239-251): 204 (NO_CONTENT) succeeds with no payload. -/
def members_update_handle
    (decode_api_error : Body → Except SerdeError ApiError)
    (status : Nat) (cluster_info : ClusterInfo) (body : Body) :
    Except Error (Response Unit) :=
  if status = 204 then
    .ok { data := (), cluster_info := cluster_info }
  else
    match decode_api_error body with
    | .ok error => .error (.Api error)
    | .error error => .error (.Serialization error)

/-! ## Dispatcher lemmas -/

/-- The loop returns the first success whatever the accumulator already
holds: the accumulated error list is never consulted on success. -/
theorem first_future_ok_loop_ok {T E : Type} (errors : List E)
    (futures : List (Except E T)) (i : Nat) (v : T)
    (hi : futures[i]? = some (.ok v))
    (hbefore : ∀ j, j < i → ∃ e, futures[j]? = some (.error e)) :
    first_future_ok_loop errors futures = .ok v := by
  induction futures generalizing errors i with
  | nil => simp at hi
  | cons f rest ih =>
    cases i with
    | zero =>
      simp at hi
      simp [first_future_ok_loop, hi]
    | succ i =>
      obtain ⟨e, he⟩ := hbefore 0 (Nat.succ_pos i)
      simp at he
      simp only [List.getElem?_cons_succ] at hi
      simp [first_future_ok_loop, he]
      exact ih _ i hi fun j hj => by
        obtain ⟨e2, he2⟩ := hbefore (j + 1) (Nat.succ_lt_succ hj)
        exact ⟨e2, by simpa using he2⟩

/-- On the same hypotheses, exactly the futures up to and including
position `i` are awaited. -/
theorem awaited_count_ok {T E : Type} (futures : List (Except E T))
    (i : Nat) (v : T) (hi : futures[i]? = some (.ok v))
    (hbefore : ∀ j, j < i → ∃ e, futures[j]? = some (.error e)) :
    awaited_count futures = i + 1 := by
  induction futures generalizing i with
  | nil => simp at hi
  | cons f rest ih =>
    cases i with
    | zero =>
      simp at hi
      simp [awaited_count, hi]
    | succ i =>
      obtain ⟨e, he⟩ := hbefore 0 (Nat.succ_pos i)
      simp at he
      simp only [List.getElem?_cons_succ] at hi
      simp [awaited_count, he]
      exact ih i hi fun j hj => by
        obtain ⟨e2, he2⟩ := hbefore (j + 1) (Nat.succ_lt_succ hj)
        exact ⟨e2, by simpa using he2⟩

/-- When every future fails, the loop returns the accumulator extended
by all the errors, in encounter order. -/
theorem first_future_ok_loop_all_err {T E : Type} (errors : List E)
    (futures : List (Except E T))
    (hall : ∀ f ∈ futures, ¬∃ v, f = .ok v) :
    first_future_ok_loop errors futures = .error (errors ++ errs_of futures) := by
  induction futures generalizing errors with
  | nil => simp [first_future_ok_loop, errs_of]
  | cons f rest ih =>
    cases f with
    | ok v => exact absurd ⟨v, rfl⟩ (hall _ (List.mem_cons_self _ _))
    | error e =>
      have := ih (errors ++ [e]) fun f hf => hall f (List.mem_cons_of_mem _ hf)
      simpa [first_future_ok_loop, errs_of] using this

/-- When every element fails, `errs_of` inverts `Except.error`
elementwise: the extracted errors reproduce the list in order. -/
theorem errs_of_map_error {T E : Type} (futures : List (Except E T))
    (hall : ∀ f ∈ futures, ¬∃ v, f = .ok v) :
    (errs_of futures).map (Except.error : E → Except E T) = futures := by
  induction futures with
  | nil => simp [errs_of]
  | cons f rest ih =>
    cases f with
    | ok v => exact absurd ⟨v, rfl⟩ (hall _ (List.mem_cons_self _ _))
    | error e =>
      simp [errs_of, ih fun f hf => hall f (List.mem_cons_of_mem _ hf)]

/-! ## Claim C1 -/

/-- C1: if the attempt at position `i` returns `Ok v` and all attempts
before `i` return `Err`, then the failover dispatcher returns `Ok v`
(whatever the accumulated error list holds — it is never consulted),
exactly `i + 1` futures are awaited (so no endpoint after `i` is ever
attempted), and `first_ok` on an endpoint list whose mapped attempts
form that future list returns the same `Ok v`. -/
theorem first_ok_short_circuits_on_first_success {T E : Type}
    (futures : List (Except E T)) (i : Nat) (v : T)
    (hi : futures[i]? = some (.ok v))
    (hbefore : ∀ j, j < i → ∃ e, futures[j]? = some (.error e)) :
    (∀ errors : List E, first_future_ok_loop errors futures = .ok v) ∧
    first_future_ok futures = .ok v ∧
    awaited_count futures = i + 1 ∧
    ∀ (endpoints : List Uri) (callback : Uri → Except E T),
      futures = endpoints.map callback →
      first_ok endpoints callback = .ok v := by
  refine ⟨fun errors => first_future_ok_loop_ok errors futures i v hi hbefore,
    first_future_ok_loop_ok [] futures i v hi hbefore,
    awaited_count_ok futures i v hi hbefore,
    fun endpoints callback h => ?_⟩
  have := first_future_ok_loop_ok ([] : List E) futures i v hi hbefore
  rw [h] at this
  exact this

/-- Witness for C1: endpoint 0 fails, endpoint 1 succeeds with 5, the
dispatcher returns `Ok 5` after awaiting exactly 2 futures. -/
theorem first_ok_short_circuits_on_first_success_witness :
    first_future_ok [Except.error "boom", Except.ok (5 : Nat)] = .ok 5 ∧
    awaited_count [Except.error "boom", Except.ok (5 : Nat)] = 2 := by
  have h := first_ok_short_circuits_on_first_success
    [Except.error "boom", Except.ok (5 : Nat)] 1 5 rfl
    (fun j hj => by
      have hj0 : j = 0 := Nat.lt_one_iff.mp hj
      exact ⟨"boom", by simp [hj0]⟩)
  exact ⟨h.2.1, h.2.2.1⟩

/-! ## Claim C2 -/

/-- C2: when every attempt fails, the dispatcher returns `Err` of the
errors in encounter order — one per future, so the error list has the
same length and order as the endpoint list — and on the empty endpoint
list it returns `Err []` for every callback, with zero futures awaited
(the operation closure is never invoked). -/
theorem first_ok_all_fail_collects_errors {T E : Type} :
    (∀ futures : List (Except E T), (∀ f ∈ futures, ¬∃ v, f = .ok v) →
      first_future_ok futures = .error (errs_of futures) ∧
      (errs_of futures).map (Except.error : E → Except E T) = futures ∧
      (errs_of futures).length = futures.length) ∧
    (∀ (endpoints : List Uri) (callback : Uri → Except E T),
      (∀ ep ∈ endpoints, ¬∃ v, callback ep = .ok v) →
      first_ok endpoints callback =
        .error (errs_of (endpoints.map callback)) ∧
      (errs_of (endpoints.map callback)).length = endpoints.length) ∧
    (∀ callback : Uri → Except E T,
      first_ok [] callback = .error [] ∧
      awaited_count (([] : List Uri).map callback) = 0) := by
  have key : ∀ futures : List (Except E T),
      (∀ f ∈ futures, ¬∃ v, f = .ok v) →
      first_future_ok futures = .error (errs_of futures) ∧
      (errs_of futures).map (Except.error : E → Except E T) = futures ∧
      (errs_of futures).length = futures.length := by
    intro futures hall
    have h1 := first_future_ok_loop_all_err ([] : List E) futures hall
    have h2 := errs_of_map_error futures hall
    refine ⟨by simpa [first_future_ok] using h1, h2, ?_⟩
    calc (errs_of futures).length
        = ((errs_of futures).map (Except.error : E → Except E T)).length := by
          simp
      _ = futures.length := by rw [h2]
  refine ⟨key, fun endpoints callback hall => ?_, fun callback => ?_⟩
  · have hall2 : ∀ f ∈ endpoints.map callback, ¬∃ v, f = .ok v := by
      intro f hf
      obtain ⟨ep, hep, rfl⟩ := List.mem_map.mp hf
      exact hall ep hep
    obtain ⟨h1, _, h3⟩ := key (endpoints.map callback) hall2
    exact ⟨h1, by simpa using h3⟩
  · exact ⟨rfl, rfl⟩

/-- Witness for C2: two always-failing endpoints produce the error list
`["a fails", "b fails"]` in endpoint order; the empty endpoint list
produces `Err []` with zero closure invocations. -/
theorem first_ok_all_fail_collects_errors_witness :
    first_ok ["a", "b"]
      (fun ep => (Except.error (ep ++ " fails") : Except String Nat)) =
      .error ["a fails", "b fails"] ∧
    first_ok []
      (fun ep => (Except.error (ep ++ " fails") : Except String Nat)) =
      .error [] ∧
    awaited_count (([] : List Uri).map
      (fun ep => (Except.error (ep ++ " fails") : Except String Nat))) = 0 := by
  have h := (first_ok_all_fail_collects_errors (T := Nat) (E := String)).2.1
    ["a", "b"] (fun ep => .error (ep ++ " fails"))
    (fun ep _ => by simp)
  have he := (first_ok_all_fail_collects_errors (T := Nat) (E := String)).2.2
    (fun ep => .error (ep ++ " fails"))
  exact ⟨by simpa [errs_of] using h.1, he.1, he.2⟩

/-! ## Claim C3 -/

/-- C3: a set or delete whose options carry conditions with both fields
absent fails with exactly the single `InvalidConditions` error — for
every transport and every endpoint list, so no endpoint can have been
consulted — and its per-endpoint closure runs zero times; the same
holds for `compare_and_swap` and `compare_and_delete` invoked with both
condition arguments absent. -/
theorem conditions_both_absent_fail_fast (key : String)
    (conditions : ComparisonConditions) (hv : conditions.value = none)
    (hm : conditions.modified_index = none) :
    ∀ (so : SetOptions) (dopt : DeleteOptions),
      so.conditions = some conditions → dopt.conditions = some conditions →
      ∀ (api : HttpApi) (endpoints : List Uri),
        raw_set api endpoints key so = .error [.InvalidConditions] ∧
        raw_delete api endpoints key dopt = .error [.InvalidConditions] ∧
        raw_set_contacts api endpoints key so = 0 ∧
        raw_delete_contacts api endpoints key dopt = 0 ∧
        (∀ (value : String) (ttl : Option Nat),
          compare_and_swap api endpoints key value ttl none none =
            .error [.InvalidConditions]) ∧
        compare_and_delete api endpoints key none none =
          .error [.InvalidConditions] := by
  intro so dopt hso hdopt api endpoints
  have hempty : conditions.is_empty = true := by
    simp [ComparisonConditions.is_empty, hv, hm]
  have hset : raw_set_http_options so = .error [.InvalidConditions] := by
    simp [raw_set_http_options, hso, hempty]
  have hdel : raw_delete_query_pairs dopt = .error [.InvalidConditions] := by
    simp [raw_delete_query_pairs, hdopt, hempty]
  refine ⟨?_, ?_, ?_, ?_, ?_, ?_⟩
  · simp [raw_set, hset]
  · simp [raw_delete, hdel]
  · simp [raw_set_contacts, hset]
  · simp [raw_delete_contacts, hdel]
  · intro value ttl
    simp [compare_and_swap, raw_set, raw_set_http_options,
      ComparisonConditions.is_empty]
  · simp [compare_and_delete, raw_delete, raw_delete_query_pairs,
      ComparisonConditions.is_empty]

/-- Witness for C3: against the stub transport and one endpoint, a
conditional set and delete with both condition fields absent fail with
the single `InvalidConditions` error and zero endpoints contacted. -/
theorem conditions_both_absent_fail_fast_witness :
    raw_set stubApi ["http://e1/"] "/k"
      { conditions := some { value := none, modified_index := none } } =
      .error [.InvalidConditions] ∧
    raw_delete stubApi ["http://e1/"] "/k"
      { conditions := some { value := none, modified_index := none } } =
      .error [.InvalidConditions] ∧
    raw_set_contacts stubApi ["http://e1/"] "/k"
      { conditions := some { value := none, modified_index := none } } = 0 ∧
    raw_delete_contacts stubApi ["http://e1/"] "/k"
      { conditions := some { value := none, modified_index := none } } = 0 := by
  have h := conditions_both_absent_fail_fast "/k"
    { value := none, modified_index := none } rfl rfl
    { conditions := some { value := none, modified_index := none } }
    { conditions := some { value := none, modified_index := none } }
    rfl rfl stubApi ["http://e1/"]
  exact ⟨h.1, h.2.1, h.2.2.1, h.2.2.2.1⟩

/-! ## Claim C4 -/

/-- C4: key-value response classification is a two-stage decode.  On
the expected success status (200 for get/delete, 200 or 201 for set)
the body is decoded as `KeyValueInfo`: success on parse, a
`Serialization` error (not a transport error, not a silent success) on
parse failure.  On any other status the body is decoded as the
structured `ApiError` payload: an `Api` error carrying it on parse, a
`Serialization` error on parse failure. -/
theorem kv_classification_two_stage (api : HttpApi) (status : Nat)
    (cluster_info : ClusterInfo) (body : Body) :
    ((status = 200 →
        (∀ data, api.from_reader_kv body = .ok data →
          kv_classify_ok api status cluster_info body =
            .ok { data := data, cluster_info := cluster_info }) ∧
        (∀ e, api.from_reader_kv body = .error e →
          kv_classify_ok api status cluster_info body =
            .error (.Serialization e))) ∧
      (status ≠ 200 →
        (∀ err, api.from_reader_api_error body = .ok err →
          kv_classify_ok api status cluster_info body = .error (.Api err)) ∧
        (∀ e, api.from_reader_api_error body = .error e →
          kv_classify_ok api status cluster_info body =
            .error (.Serialization e)))) ∧
    ((status = 201 ∨ status = 200 →
        (∀ data, api.from_reader_kv body = .ok data →
          kv_classify_set api status cluster_info body =
            .ok { data := data, cluster_info := cluster_info }) ∧
        (∀ e, api.from_reader_kv body = .error e →
          kv_classify_set api status cluster_info body =
            .error (.Serialization e))) ∧
      (¬(status = 201 ∨ status = 200) →
        (∀ err, api.from_reader_api_error body = .ok err →
          kv_classify_set api status cluster_info body = .error (.Api err)) ∧
        (∀ e, api.from_reader_api_error body = .error e →
          kv_classify_set api status cluster_info body =
            .error (.Serialization e)))) := by
  refine ⟨⟨fun hs => ⟨fun data hd => ?_, fun e hd => ?_⟩,
      fun hs => ⟨fun err hd => ?_, fun e hd => ?_⟩⟩,
    ⟨fun hs => ⟨fun data hd => ?_, fun e hd => ?_⟩,
      fun hs => ⟨fun err hd => ?_, fun e hd => ?_⟩⟩⟩ <;>
    simp [kv_classify_ok, kv_classify_set, hs, hd]

/-- Witness for C4: at status 200 the stub decoder rejects every body,
so classification yields a `Serialization` error; at status 404 the
stub error decoder also rejects, again a `Serialization` error. -/
theorem kv_classification_two_stage_witness :
    kv_classify_ok stubApi 200 { clusterId := none, etcdIndex := none } "" =
      .error (.Serialization ⟨"invalid body"⟩) ∧
    kv_classify_set stubApi 404 { clusterId := none, etcdIndex := none } "" =
      .error (.Serialization ⟨"invalid body"⟩) := by
  refine ⟨((kv_classification_two_stage stubApi 200
      { clusterId := none, etcdIndex := none } "").1.1 rfl).2
        ⟨"invalid body"⟩ rfl,
    ((kv_classification_two_stage stubApi 404
      { clusterId := none, etcdIndex := none } "").2.2 (by simp)).2
        ⟨"invalid body"⟩ rfl⟩

/-! ## Claim C9 -/

/-- C9: `compare_and_swap` and `compare_and_delete` are exactly the
generic set and delete pipelines with the conditions populated from the
two current-state arguments (plus the value and ttl for the swap), and
every other option at its default — there is no separate code path. -/
theorem cas_cad_are_generic_pipelines (api : HttpApi)
    (endpoints : List Uri) (key value : String) (ttl : Option Nat)
    (current_value : Option String) (current_modified_index : Option Nat) :
    compare_and_swap api endpoints key value ttl current_value
        current_modified_index =
      raw_set api endpoints key
        { value := some value
          ttl := ttl
          dir := none
          prev_exist := none
          create_in_order := false
          conditions := some
            { value := current_value
              modified_index := current_modified_index } } ∧
    compare_and_delete api endpoints key current_value
        current_modified_index =
      raw_delete api endpoints key
        { recursive := none
          dir := none
          conditions := some
            { value := current_value
              modified_index := current_modified_index } } :=
  ⟨rfl, rfl⟩

/-! ## Claim C5 -/

/-- C5 counterexample: with every get option at its default (nothing
requested: `recursive = false`, no sort, no wait, no wait index),
`raw_get` still serializes one query parameter, `recursive=false`.  So
it is false that an absent (unset) option contributes no query
parameter — the claim fails at this concrete input. -/
theorem raw_get_serializes_absent_recursive :
    raw_get_query_pairs {} = [("recursive", "false")] ∧
    ¬(∀ o : InternalGetOptions, o.recursive = false →
        ∀ v, ("recursive", v) ∉ raw_get_query_pairs o) := by
  refine ⟨rfl, fun h => ?_⟩
  exact h {} rfl "false" (by simp [raw_get_query_pairs, fmt_bool])

/-- C5 amended: for delete, each present option yields exactly one
query parameter under its wire name (`recursive`, `dir`, `prevIndex`,
`prevValue`) with the serialized value, absent options yield none, and
no other parameter exists.  For get, `sorted` and `waitIndex` follow
present/absent, `wait` yields one parameter exactly when true, but
`recursive` is always serialized as one parameter carrying its boolean
value — even when false. -/
theorem query_param_serialization (o : DeleteOptions)
    (qp : List (String × String)) (hok : raw_delete_query_pairs o = .ok qp)
    (g : InternalGetOptions) :
    ((qp.filter fun p => p.1 == "recursive") =
      (match o.recursive with
        | some b => [("recursive", fmt_bool b)]
        | none => [])) ∧
    ((qp.filter fun p => p.1 == "dir") =
      (match o.dir with
        | some b => [("dir", fmt_bool b)]
        | none => [])) ∧
    ((qp.filter fun p => p.1 == "prevIndex") =
      (match o.conditions with
        | some c =>
          match c.modified_index with
          | some n => [("prevIndex", toString n)]
          | none => []
        | none => [])) ∧
    ((qp.filter fun p => p.1 == "prevValue") =
      (match o.conditions with
        | some c =>
          match c.value with
          | some v => [("prevValue", v)]
          | none => []
        | none => [])) ∧
    (∀ p ∈ qp, p.1 = "recursive" ∨ p.1 = "dir" ∨ p.1 = "prevIndex" ∨
      p.1 = "prevValue") ∧
    (((raw_get_query_pairs g).filter fun p => p.1 == "recursive") =
      [("recursive", fmt_bool g.recursive)]) ∧
    (((raw_get_query_pairs g).filter fun p => p.1 == "sorted") =
      (match g.sort with
        | some b => [("sorted", fmt_bool b)]
        | none => [])) ∧
    (((raw_get_query_pairs g).filter fun p => p.1 == "wait") =
      (if g.wait then [("wait", "true")] else [])) ∧
    (((raw_get_query_pairs g).filter fun p => p.1 == "waitIndex") =
      (match g.wait_index with
        | some n => [("waitIndex", toString n)]
        | none => [])) ∧
    (∀ p ∈ raw_get_query_pairs g, p.1 = "recursive" ∨ p.1 = "sorted" ∨
      p.1 = "wait" ∨ p.1 = "waitIndex") := by
  obtain ⟨rec, dir, cond⟩ := o
  obtain ⟨grec, gsort, gsc, gwait, gwi⟩ := g
  have hq : ∀ p ∈ qp, p.1 = "recursive" ∨ p.1 = "dir" ∨ p.1 = "prevIndex" ∨
      p.1 = "prevValue" := by
    rcases cond with _ | ⟨cv, cmi⟩
    · cases rec <;> cases dir <;>
        simp [raw_delete_query_pairs] at hok <;> subst hok <;> simp
    · rcases cv with _ | v <;> rcases cmi with _ | n <;>
        cases rec <;> cases dir <;>
        simp [raw_delete_query_pairs, ComparisonConditions.is_empty]
          at hok <;> subst hok <;> simp
  refine ⟨?_, ?_, ?_, ?_, hq, ?_, ?_, ?_, ?_, ?_⟩ <;>
    first
    | (rcases cond with _ | ⟨cv, cmi⟩
       · cases rec <;> cases dir <;>
           simp [raw_delete_query_pairs] at hok <;> subst hok <;> simp
       · rcases cv with _ | v <;> rcases cmi with _ | n <;>
           cases rec <;> cases dir <;>
           simp [raw_delete_query_pairs, ComparisonConditions.is_empty]
             at hok <;> subst hok <;> simp)
    | (rcases gsort with _ | b <;> cases gwait <;> rcases gwi with _ | n <;>
        simp [raw_get_query_pairs])

/-- Witness for C5 amended: a delete with `recursive = some true` and a
prev-value condition serializes exactly the two corresponding
parameters; checked through the theorem at that input. -/
theorem query_param_serialization_witness :
    ((([("recursive", "true"), ("prevValue", "old")] :
        List (String × String)).filter fun p => p.1 == "recursive") =
      [("recursive", "true")]) ∧
    raw_delete_query_pairs
      { recursive := some true
        conditions := some { value := some "old", modified_index := none } } =
      .ok [("recursive", "true"), ("prevValue", "old")] := by
  have h := query_param_serialization
    { recursive := some true
      conditions := some { value := some "old", modified_index := none } }
    [("recursive", "true"), ("prevValue", "old")] rfl {}
  exact ⟨h.1, rfl⟩

/-! ## Claim C6 -/

/-- C6: the set pipeline serializes exactly the present option fields
into the form body under their wire names (`value`, `ttl`, `dir`,
`prevExist`, `prevIndex`, `prevValue`), absent fields contribute no
form field, no other field exists (in particular none for
`create_in_order`), and `create_in_order` instead selects the verb:
POST when true, PUT otherwise. -/
theorem set_body_serialization (o : SetOptions)
    (fields : List (String × String))
    (hok : raw_set_http_options o = .ok fields) :
    ((fields.filter fun p => p.1 == "value") =
      (match o.value with | some v => [("value", v)] | none => [])) ∧
    ((fields.filter fun p => p.1 == "ttl") =
      (match o.ttl with | some t => [("ttl", toString t)] | none => [])) ∧
    ((fields.filter fun p => p.1 == "dir") =
      (match o.dir with | some b => [("dir", fmt_bool b)] | none => [])) ∧
    ((fields.filter fun p => p.1 == "prevExist") =
      (match o.prev_exist with
        | some b => [("prevExist", fmt_bool b)]
        | none => [])) ∧
    ((fields.filter fun p => p.1 == "prevIndex") =
      (match o.conditions with
        | some c =>
          match c.modified_index with
          | some n => [("prevIndex", toString n)]
          | none => []
        | none => [])) ∧
    ((fields.filter fun p => p.1 == "prevValue") =
      (match o.conditions with
        | some c =>
          match c.value with
          | some v => [("prevValue", v)]
          | none => []
        | none => [])) ∧
    (∀ p ∈ fields, p.1 = "value" ∨ p.1 = "ttl" ∨ p.1 = "dir" ∨
      p.1 = "prevExist" ∨ p.1 = "prevIndex" ∨ p.1 = "prevValue") ∧
    (∀ (api : HttpApi) (uri : Uri) (body : Body),
      set_request api true uri body = api.http_post uri body ∧
      set_request api false uri body = api.http_put uri body) := by
  obtain ⟨v, t, d, pe, cio, cond⟩ := o
  refine ⟨?_, ?_, ?_, ?_, ?_, ?_, ?_, fun api uri body => ⟨rfl, rfl⟩⟩ <;>
    (rcases cond with _ | ⟨cv, cmi⟩
     · cases v <;> cases t <;> cases d <;> cases pe <;>
         simp [raw_set_http_options] at hok <;> subst hok <;> simp
     · rcases cv with _ | cvv <;> rcases cmi with _ | cmin <;>
         cases v <;> cases t <;> cases d <;> cases pe <;>
         simp [raw_set_http_options, ComparisonConditions.is_empty]
           at hok <;> subst hok <;> simp)

/-- Witness for C6: a set with only a value and a ttl builds exactly
those two form fields, and the verb selection is PUT (no ordered-key
creation); checked through the theorem at that input. -/
theorem set_body_serialization_witness :
    ((([("value", "x"), ("ttl", "5")] :
        List (String × String)).filter fun p => p.1 == "value") =
      [("value", "x")]) ∧
    set_request stubApi false "u" "b" = stubApi.http_put "u" "b" := by
  have h := set_body_serialization
    { value := some "x", ttl := some 5 } [("value", "x"), ("ttl", "5")] rfl
  exact ⟨h.1, (h.2.2.2.2.2.2.2 stubApi "u" "b").2⟩

/-! ## Claim C7 -/

/-- C7: the watch long-poll is a `raw_get` with `wait` set and
`wait_index` taken from the supplied index, its dispatcher-level
failures wrapped as `Other` watch errors.  With no timeout configured,
`watch` is exactly that long-poll, whatever the timer race would say.
With a timeout configured, `watch` resolves to the `Timeout` error when
the timer fires first, and to the wrapped long-poll result when the
long-poll resolves first. -/
theorem watch_timeout_race (api : HttpApi) (endpoints : List Uri)
    (key : String) (options : WatchOptions) :
    (options.timeout = none → ∀ timer_fires_first,
      watch api endpoints key options timer_fires_first =
        map_err WatchError.Other (raw_get api endpoints key
          { recursive := options.recursive
            wait_index := options.index
            wait := true })) ∧
    (watch api endpoints key options false =
      map_err WatchError.Other (raw_get api endpoints key
        { recursive := options.recursive
          wait_index := options.index
          wait := true })) ∧
    (∀ duration, options.timeout = some duration →
      watch api endpoints key options true = .error .Timeout) ∧
    (∀ errors, raw_get api endpoints key
        { recursive := options.recursive
          wait_index := options.index
          wait := true } = .error errors →
      watch api endpoints key options false = .error (.Other errors)) := by
  refine ⟨fun ht _tf => by simp [watch, ht], ?_, fun d hd => ?_, fun errors he => ?_⟩
  · cases ht : options.timeout with
    | none => simp [watch, ht]
    | some d =>
      simp [watch, ht, tokio_timeout, map_err, flatten_result, Except.bind]
  · simp [watch, hd, tokio_timeout, map_err, flatten_result,
      WatchError.from_elapsed, Except.bind]
  · cases ht : options.timeout with
    | none => simp [watch, ht, he, map_err]
    | some d =>
      simp [watch, ht, he, tokio_timeout, map_err, flatten_result, Except.bind]

/-- Witness for C7: against the stub transport (the long-poll fails on
the single endpoint with a transport error), a watch with a configured
timeout whose timer fires first resolves to `Timeout`, and with no
timeout it resolves to the long-poll errors wrapped as `Other`. -/
theorem watch_timeout_race_witness :
    watch stubApi ["http://e1/"] "/k"
      { index := some 7, timeout := some 50 } true = .error .Timeout ∧
    watch stubApi ["http://e1/"] "/k" { index := some 7 } true =
      .error (.Other [.Transport "connection refused"]) := by
  have h1 := (watch_timeout_race stubApi ["http://e1/"] "/k"
    { index := some 7, timeout := some 50 }).2.2.1 50 rfl
  have h2 := (watch_timeout_race stubApi ["http://e1/"] "/k"
    { index := some 7 }).1 rfl true
  refine ⟨h1, h2.trans ?_⟩
  rfl

/-! ## Claim C8 -/

/-- C8: the auth enable and disable toggles classify status 200 as
success with outcome `Changed`, status 409 as success with outcome
`Unchanged`, and every other status as an `UnexpectedStatus` error;
every other operation in the library classifies a 409 response as an
error, never as success. -/
theorem auth_toggle_409_special (cluster_info : ClusterInfo) :
    (auth_enable_handle 200 cluster_info =
      .ok { data := .Changed, cluster_info := cluster_info }) ∧
    (auth_enable_handle 409 cluster_info =
      .ok { data := .Unchanged, cluster_info := cluster_info }) ∧
    (∀ s, s ≠ 200 → s ≠ 409 →
      auth_enable_handle s cluster_info = .error (.UnexpectedStatus s)) ∧
    (auth_disable_handle 200 cluster_info =
      .ok { data := .Changed, cluster_info := cluster_info }) ∧
    (auth_disable_handle 409 cluster_info =
      .ok { data := .Unchanged, cluster_info := cluster_info }) ∧
    (∀ s, s ≠ 200 → s ≠ 409 →
      auth_disable_handle s cluster_info = .error (.UnexpectedStatus s)) ∧
    (∀ (api : HttpApi) (body : Body),
      isSuccess (kv_classify_ok api 409 cluster_info body) = false ∧
      isSuccess (kv_classify_set api 409 cluster_info body) = false) ∧
    (∀ (dr : Body → Except SerdeError Role)
        (du : Body → Except SerdeError User)
        (dud : Body → Except SerdeError UserDetail)
        (drs : Body → Except SerdeError Roles)
        (dus : Body → Except SerdeError Users)
        (das : Body → Except SerdeError AuthStatus)
        (dae : Body → Except SerdeError ApiError)
        (dl : Body → Except SerdeError ListResponse) (body : Body),
      isSuccess (create_role_handle dr 409 cluster_info body) = false ∧
      isSuccess (create_user_handle du 409 cluster_info body) = false ∧
      isSuccess (delete_role_handle 409 cluster_info) = false ∧
      isSuccess (delete_user_handle 409 cluster_info) = false ∧
      isSuccess (get_role_handle dr 409 cluster_info body) = false ∧
      isSuccess (get_roles_handle drs 409 cluster_info body) = false ∧
      isSuccess (get_user_handle dud 409 cluster_info body) = false ∧
      isSuccess (get_users_handle dus 409 cluster_info body) = false ∧
      isSuccess (auth_status_handle das dae 409 cluster_info body) = false ∧
      isSuccess (update_role_handle dr 409 cluster_info body) = false ∧
      isSuccess (update_user_handle du 409 cluster_info body) = false ∧
      isSuccess (members_add_handle dae 409 cluster_info body) = false ∧
      isSuccess (members_delete_handle dae 409 cluster_info body) = false ∧
      isSuccess (members_list_handle dl dae 409 cluster_info body) = false ∧
      isSuccess (members_update_handle dae 409 cluster_info body) = false) := by
  refine ⟨rfl, rfl, fun s h200 h409 => ?_, rfl, rfl, fun s h200 h409 => ?_,
    fun api body => ⟨?_, ?_⟩,
    fun dr du dud drs dus das dae dl body =>
      ⟨?_, ?_, rfl, rfl, ?_, ?_, ?_, ?_, ?_, ?_, ?_, ?_, ?_, ?_, ?_⟩⟩
  · simp [auth_enable_handle, h200, h409]
  · simp [auth_disable_handle, h200, h409]
  · cases h : api.from_reader_api_error body <;>
      simp [kv_classify_ok, isSuccess, h]
  · cases h : api.from_reader_api_error body <;>
      simp [kv_classify_set, isSuccess, h]
  · simp [create_role_handle, isSuccess]
  · simp [create_user_handle, isSuccess]
  · simp [get_role_handle, isSuccess]
  · simp [get_roles_handle, isSuccess]
  · simp [get_user_handle, isSuccess]
  · simp [get_users_handle, isSuccess]
  · cases h : dae body <;> simp [auth_status_handle, isSuccess, h]
  · simp [update_role_handle, isSuccess]
  · simp [update_user_handle, isSuccess]
  · cases h : dae body <;> simp [members_add_handle, isSuccess, h]
  · cases h : dae body <;> simp [members_delete_handle, isSuccess, h]
  · cases h : dae body <;> simp [members_list_handle, isSuccess, h]
  · cases h : dae body <;> simp [members_update_handle, isSuccess, h]

/-- Witness for C8: at status 500 the enable toggle reports
`UnexpectedStatus 500`; at 409 it reports success `Unchanged`; the
set pipeline's classifier treats 409 as an error under the stub
decoders. -/
theorem auth_toggle_409_special_witness :
    auth_enable_handle 500 { clusterId := none, etcdIndex := none } =
      .error (.UnexpectedStatus 500) ∧
    auth_enable_handle 409 { clusterId := none, etcdIndex := none } =
      .ok { data := .Unchanged,
            cluster_info := { clusterId := none, etcdIndex := none } } ∧
    isSuccess
      (kv_classify_set stubApi 409
        { clusterId := none, etcdIndex := none } "") = false := by
  have h := auth_toggle_409_special { clusterId := none, etcdIndex := none }
  exact ⟨h.2.2.1 500 (by decide) (by decide), h.2.1,
    (h.2.2.2.2.2.2.1 stubApi "").2⟩

/-! ## Claim C10 -/

/-- C10: for `get_users` and `get_roles`, a 200 response whose body
decodes with the `users` (respectively `roles`) array absent yields
`Ok` with the empty vector, not a `Serialization` error — callers never
see an absent-list marker distinct from the empty list. -/
theorem absent_user_role_lists_default_empty
    (decode_users : Body → Except SerdeError Users)
    (decode_roles : Body → Except SerdeError Roles)
    (ciu cir : ClusterInfo) (bu br : Body)
    (hu : decode_users bu = .ok { users := none })
    (hr : decode_roles br = .ok { roles := none }) :
    get_users_handle decode_users 200 ciu bu =
      .ok { data := [], cluster_info := ciu } ∧
    get_roles_handle decode_roles 200 cir br =
      .ok { data := [], cluster_info := cir } := by
  constructor
  · simp [get_users_handle, hu]
  · simp [get_roles_handle, hr]

/-- Witness for C10: with a decoder that parses every body to an absent
list, both operations succeed with the empty vector at status 200. -/
theorem absent_user_role_lists_default_empty_witness :
    get_users_handle (fun _ => .ok { users := none }) 200
      { clusterId := none, etcdIndex := none } "" =
      .ok { data := [],
            cluster_info := { clusterId := none, etcdIndex := none } } ∧
    get_roles_handle (fun _ => .ok { roles := none }) 200
      { clusterId := none, etcdIndex := none } "" =
      .ok { data := [],
            cluster_info := { clusterId := none, etcdIndex := none } } :=
  absent_user_role_lists_default_empty
    (fun _ => .ok { users := none }) (fun _ => .ok { roles := none })
    { clusterId := none, etcdIndex := none }
    { clusterId := none, etcdIndex := none } "" "" rfl rfl

end Etcd

